import Mathlib

/-!
Shallow embedding of the file-to-renderable-geometry pipeline of the
fleetvision dashboard (class RhinoComputeService, src/src/pages/Settings.tsx,
lines 523-779; the same class also appears in src/src/services/rhinoCompute.ts
without the remote-compute path).

Modelling conventions:
* Every external effect (dynamic import of rhino3dm, fetch to the compute
  server, FileReader, the engine decoding a byte buffer) is an input supplied
  by an UploadEnv value; the Lean functions reproduce only the repository's
  own control flow over those inputs.
* An async TypeScript method returning Promise.resolve(v) is modelled as
  Except.ok v; a rejected promise (an exception escaping the call) is
  Except.error msg.
* Numbers delivered by the engine are modelled as Rat; the color-channel
  division by 255 is exact rational division.
* Engine-side resource handling is tracked by a Trace: how many times
  parseLocally was entered, how many documents were opened / deleted, and how
  many meshes were produced by Mesh.createFromBrep / Mesh.createFromSurface
  versus how many of those had delete() called on them.
-/

deriving instance DecidableEq for Except

namespace FleetVision

/-- Object type discriminants read off geometry.objectType
(rhinoModule.ObjectType.Mesh / Brep / Surface in the source; every other
enum value falls into the final else branch and is collected as other). -/
inductive RObjectType
  | mesh
  | brep
  | surface
  | other
deriving DecidableEq, Repr

/-- A mesh face as delivered by mesh.faces().get(i): the four corner indices
a, b, c, d and the isTriangle flag the source branches on. -/
structure MeshFace where
  isTriangle : Bool
  a : Nat
  b : Nat
  c : Nat
  d : Nat
deriving DecidableEq, Repr

/-- A vertex color as delivered by mesh.vertexColors().get(i):
0-255 integer channels r, g, b, a. -/
structure RawColor where
  r : Nat
  g : Nat
  b : Nat
  a : Nat
deriving DecidableEq, Repr

/-- The data of one engine-side mesh, as the engine hands it to
extractMeshGeometry. fault models an engine exception thrown while the
extraction loops read vertices/faces/normals/colors (the reason the source
wraps the whole extraction in try/catch): when fault = some msg, reading the
mesh data throws msg before any data is extracted. -/
structure EngineMesh where
  vertices : List (Rat × Rat × Rat)
  faces : List MeshFace
  normals : List (Rat × Rat × Rat)
  vertexColors : List RawColor
  fault : Option String
deriving DecidableEq, Repr

/-- The geometry of one document object, by the branch extractMeshGeometry
takes on geometry.objectType:
* mesh m: objectType = Mesh, the geometry itself is the mesh (mesh = geometry);
* brep conv: objectType = Brep; conv is the outcome of
  Mesh.createFromBrep(geometry, MeshingParameters.default) - the engine call
  may throw (.error), return null (.ok none) or return a fresh mesh;
* surface conv: objectType = Surface; conv is the outcome of
  Mesh.createFromSurface likewise;
* other: any other objectType - no branch assigns mesh, so mesh stays null. -/
inductive GeometryData
  | mesh (m : EngineMesh)
  | brep (conv : Except String (Option EngineMesh))
  | surface (conv : Except String (Option EngineMesh))
  | other
deriving DecidableEq, Repr

/-- The objectType discriminant carried by a GeometryData value. -/
def GeometryData.objType : GeometryData → RObjectType
  | .mesh _ => .mesh
  | .brep _ => .brep
  | .surface _ => .surface
  | .other => .other

/-- The attribute record extractAttributes builds from rhinoObject.attributes()
(layer = layerIndex, material = materialIndex, color = drawColor,
visible, name). -/
structure Attrs where
  layer : Int
  material : Int
  color : Nat
  visible : Bool
  name : String
deriving DecidableEq, Repr

/-- One entry of the document's object table: its id, its geometry (null when
rhinoObject.geometry() returns null) and the outcome of reading
rhinoObject.attributes() (.error models the attribute read throwing, which
the source swallows into an empty record). -/
structure DocObject where
  id : String
  geometry : Option GeometryData
  attrs : Except Unit Attrs
deriving DecidableEq, Repr

/-- The document File3dm.fromByteArray produced: its object table in table
order. -/
structure Doc where
  objects : List DocObject
deriving DecidableEq, Repr

/-- The RhinoGeometry record the service builds (interface RhinoGeometry in
the source): vertex rows, face index rows, optional normals, optional
normalized colors. -/
structure RhinoGeometry where
  vertices : List (List Rat)
  faces : List (List Nat)
  normals : Option (List (List Rat))
  colors : Option (List (List Rat))
deriving DecidableEq, Repr

/-- The RhinoObject record pushed for each convertible document object
(interface RhinoObject in the source). attributes = none models the empty
record the attribute catch returns. -/
structure RhinoObject where
  id : String
  geometry : RhinoGeometry
  attributes : Option Attrs
  objectType : RObjectType
deriving DecidableEq, Repr

/-- The handle returned by rhino3dm.default(); eid distinguishes handles so
that caching can be observed. -/
structure Engine where
  eid : Nat
deriving DecidableEq, Repr

/-- The singleton's mutable field: private rhinoModule: any = null. -/
structure ServiceState where
  rhinoModule : Option Engine
deriving DecidableEq, Repr

/-- The abstract content of the compute server's JSON body; meshes is the
number of meshes the response carries (the repository never reads the body,
so only this summary is needed). -/
structure ComputeJson where
  meshes : Nat
deriving DecidableEq, Repr

/-- The response of the POST to computeUrl/grasshopper: response.ok,
response.statusText and the outcome of response.json() (which may throw). -/
structure ComputeResponse where
  ok : Bool
  statusText : String
  json : Except String ComputeJson
deriving DecidableEq, Repr

/-- Everything the outside world contributes to one parse3dmFile call:
* loadRhino: outcome of import('rhino3dm') followed by rhino3dm.default();
* version: outcome of fetch(computeUrl/version) (body text on success);
* grasshopper: outcome of fetch(computeUrl/grasshopper, POST form) - .error
  is a network failure thrown by fetch;
* readOk: whether the FileReader delivers the file bytes (false fires
  reader.onerror);
* decode: outcome of File3dm.fromByteArray on the file bytes - .error models
  the engine throwing on corrupt bytes. -/
structure UploadEnv where
  loadRhino : Except String Engine
  version : Except String String
  grasshopper : Except String ComputeResponse
  readOk : Bool
  decode : Except String Doc
deriving DecidableEq, Repr

/-- Per-call instrumentation of the embedding: import attempts performed,
parseLocally entries, documents opened / deleted, meshes created by
Mesh.createFromBrep / Mesh.createFromSurface and delete() calls on those
created meshes. -/
structure Trace where
  imports : Nat
  localCalls : Nat
  docsOpened : Nat
  docsDeleted : Nat
  meshesCreated : Nat
  meshesDeleted : Nat
deriving DecidableEq, Repr

/-- The all-zero trace. -/
def Trace.zero : Trace :=
  { imports := 0, localCalls := 0, docsOpened := 0, docsDeleted := 0,
    meshesCreated := 0, meshesDeleted := 0 }

/-- Result of the initialize method: the value of the returned promise, the
service state after the call, and how many import attempts were made. -/
structure InitResult where
  result : Except String Engine
  state : ServiceState
  imports : Nat
deriving DecidableEq, Repr

/-- Result of one parse3dmFile call: the value of the returned promise
(.error = rejected), the service state after the call and the trace. -/
structure ParseResult where
  result : Except String (List RhinoObject)
  state : ServiceState
  trace : Trace
deriving DecidableEq, Repr

/-- Result of parseLocally: the promise value and the resource trace
(imports and localCalls stay 0 here; parse3dmFile fills them in). -/
structure LocalResult where
  result : Except String (List RhinoObject)
  trace : Trace
deriving DecidableEq, Repr

/-- Result of extractMeshGeometry: the RhinoGeometry (none when the object is
skipped), plus how many meshes the engine created for this object and how
many of those were deleted. -/
structure MeshExtract where
  geom : Option RhinoGeometry
  created : Nat
  deleted : Nat
deriving DecidableEq, Repr

/-- testComputeConnection: fetches computeUrl/version and only logs; every
path is caught inside the method, so it never rejects and its outcome is
unobservable. -/
def testComputeConnection (env : UploadEnv) : Unit :=
  match env.version with
  | .error _ => ()
  | .ok _ => ()

/-- The initialize method: if this.rhinoModule is set, return it at once
(no import, no connection test); otherwise import and start rhino3dm
(env.loadRhino, one import attempt), cache the handle on success and run
testComputeConnection, or catch and rethrow
"Rhino3dm initialization failed: ..." on failure, leaving rhinoModule unset. -/
def initEngine (s : ServiceState) (env : UploadEnv) : InitResult :=
  match s.rhinoModule with
  | some m => { result := .ok m, state := s, imports := 0 }
  | none =>
    match env.loadRhino with
    | .error e =>
      { result := .error ("Rhino3dm initialization failed: " ++ e),
        state := s, imports := 1 }
    | .ok m =>
      let _probe := testComputeConnection env
      { result := .ok m, state := { rhinoModule := some m }, imports := 1 }

/-- processComputeResult: the source's placeholder conversion of the compute
response, which returns an empty array for every input. -/
def processComputeResult (_result : ComputeJson) : List RhinoObject := []

/-- parseWithCompute: POST the file to computeUrl/grasshopper; a fetch
rejection is caught, logged and rethrown; a non-ok response throws
"Rhino Compute request failed: statusText"; otherwise response.json() is
awaited (its failure likewise rethrown) and handed to processComputeResult. -/
def parseWithCompute (env : UploadEnv) : Except String (List RhinoObject) :=
  match env.grasshopper with
  | .error e => .error e
  | .ok resp =>
    if resp.ok then
      match resp.json with
      | .error e => .error e
      | .ok result => .ok (processComputeResult result)
    else
      .error ("Rhino Compute request failed: " ++ resp.statusText)

/-- The faces loop of extractMeshGeometry: for every face, push [a,b,c] when
face.isTriangle, else push [a,b,c] and then [a,c,d]. -/
def collectFaces : List MeshFace → List (List Nat)
  | [] => []
  | f :: rest =>
    if f.isTriangle then
      [f.a, f.b, f.c] :: collectFaces rest
    else
      [f.a, f.b, f.c] :: [f.a, f.c, f.d] :: collectFaces rest

/-- The color pushed for one vertex color: each 0-255 channel divided by
255 (colors.push([color.r / 255, color.g / 255, color.b / 255,
color.a / 255])). -/
def normalizeColor (c : RawColor) : List Rat :=
  [(c.r : Rat) / 255, (c.g : Rat) / 255, (c.b : Rat) / 255, (c.a : Rat) / 255]

/-- The extraction loops of extractMeshGeometry run on a concrete engine mesh
m; engineCreated records whether m came from Mesh.createFromBrep /
Mesh.createFromSurface (and hence counts as created in this call). When the
engine faults during extraction, the catch returns null WITHOUT reaching
mesh.delete(), so the created mesh is not deleted; on the normal path the
data is extracted and mesh.delete() runs. -/
def extractFromMesh (m : EngineMesh) (engineCreated : Bool) : MeshExtract :=
  let created := if engineCreated then 1 else 0
  match m.fault with
  | some _ => { geom := none, created := created, deleted := 0 }
  | none =>
    { geom := some
        { vertices := m.vertices.map (fun v => [v.1, v.2.1, v.2.2]),
          faces := collectFaces m.faces,
          normals :=
            if m.normals.length > 0 then
              some (m.normals.map (fun v => [v.1, v.2.1, v.2.2]))
            else none,
          colors :=
            if m.vertexColors.length > 0 then
              some (m.vertexColors.map normalizeColor)
            else none },
      created := created, deleted := created }

/-- The branch of extractMeshGeometry for Brep and Surface objects: the
engine conversion may throw (caught: return null), return null
(if (!mesh) return null) or return a fresh mesh, which is then extracted. -/
def extractFromConv (conv : Except String (Option EngineMesh)) : MeshExtract :=
  match conv with
  | .error _ => { geom := none, created := 0, deleted := 0 }
  | .ok none => { geom := none, created := 0, deleted := 0 }
  | .ok (some m) => extractFromMesh m true

/-- extractMeshGeometry: Mesh geometry is used directly; Brep and Surface
are tessellated with the engine's default meshing parameters; every other
object type leaves mesh null and the object is skipped. -/
def extractMeshGeometry (g : GeometryData) : MeshExtract :=
  match g with
  | .mesh m => extractFromMesh m false
  | .brep conv => extractFromConv conv
  | .surface conv => extractFromConv conv
  | .other => { geom := none, created := 0, deleted := 0 }

/-- extractAttributes: read rhinoObject.attributes() into the record, or
swallow any error into the empty record (modelled as none). -/
def extractAttributes (o : DocObject) : Option Attrs :=
  match o.attrs with
  | .ok a => some a
  | .error _ => none

/-- The conversion of a single document object as the object-table loop
performs it: skip when geometry() is null, skip when extractMeshGeometry
yields null, else build the RhinoObject pushed by the loop. -/
def toRhinoObject (o : DocObject) : Option RhinoObject :=
  match o.geometry with
  | none => none
  | some g =>
    match (extractMeshGeometry g).geom with
    | none => none
    | some mg =>
      some { id := o.id, geometry := mg, attributes := extractAttributes o,
             objectType := g.objType }

/-- The object-table loop of parseLocally, in table order, accumulating the
pushed RhinoObjects plus the created/deleted mesh counts of every
extractMeshGeometry call made. -/
def extractObjects : List DocObject → List RhinoObject × Nat × Nat
  | [] => ([], 0, 0)
  | o :: rest =>
    let tail := extractObjects rest
    match o.geometry with
    | none => tail
    | some g =>
      let ex := extractMeshGeometry g
      match ex.geom with
      | none => (tail.1, ex.created + tail.2.1, ex.deleted + tail.2.2)
      | some mg =>
        ({ id := o.id, geometry := mg, attributes := extractAttributes o,
           objectType := g.objType } :: tail.1,
         ex.created + tail.2.1, ex.deleted + tail.2.2)

/-- parseLocally: read the file (reader.onerror rejects with
"Failed to read file"), decode it with File3dm.fromByteArray (a throw is
caught by the surrounding try and rejects the promise with the engine's
message), then run the object-table loop, call doc.delete() and resolve the
collected objects. -/
def parseLocally (env : UploadEnv) : LocalResult :=
  if env.readOk then
    match env.decode with
    | .error e => { result := .error e, trace := Trace.zero }
    | .ok doc =>
      let ex := extractObjects doc.objects
      { result := .ok ex.1,
        trace := { imports := 0, localCalls := 0, docsOpened := 1,
                   docsDeleted := 1, meshesCreated := ex.2.1,
                   meshesDeleted := ex.2.2 } }
  else
    { result := .error "Failed to read file", trace := Trace.zero }

/-- parse3dmFile: await initialize (its rejection escapes - there is no
try/catch around it); then try parseWithCompute and return its objects when
the array is non-empty; any parseWithCompute rejection or an empty array
falls through to parseLocally, whose promise value is returned as is. -/
def parse3dmFile (s : ServiceState) (env : UploadEnv) : ParseResult :=
  match initEngine s env with
  | ⟨.error e, st, n⟩ =>
    { result := .error e, state := st,
      trace := { Trace.zero with imports := n } }
  | ⟨.ok _, st, n⟩ =>
    match parseWithCompute env with
    | .ok objs =>
      if objs.length > 0 then
        { result := .ok objs, state := st,
          trace := { Trace.zero with imports := n } }
      else
        { result := (parseLocally env).result, state := st,
          trace := { (parseLocally env).trace with
                       imports := n, localCalls := 1 } }
    | .error _ =>
      { result := (parseLocally env).result, state := st,
        trace := { (parseLocally env).trace with
                     imports := n, localCalls := 1 } }

/-- True when the remote attempt produced a non-empty object list (the only
case in which parse3dmFile returns without trying parseLocally). -/
def remoteNonEmpty (env : UploadEnv) : Bool :=
  match parseWithCompute env with
  | .ok objs => !objs.isEmpty
  | .error _ => false

/-- Fixture: engine loads, the compute server is unreachable, the file reads
but its bytes make File3dm.fromByteArray throw. -/
def envC1 : UploadEnv :=
  { loadRhino := .ok { eid := 1 }, version := .error "ECONNREFUSED",
    grasshopper := .error "ECONNREFUSED", readOk := true,
    decode := .error "corrupt 3dm byte buffer" }

/-- Fixture: engine load fails, the file would otherwise decode with a
corrupt-bytes error. -/
def envC1w : UploadEnv :=
  { loadRhino := .error "wasm fetch failed", version := .error "ECONNREFUSED",
    grasshopper := .error "ECONNREFUSED", readOk := true,
    decode := .error "corrupt 3dm byte buffer" }

/-- Fixture document with a single native mesh object, locally decodable and
distinguishable from anything the remote path could return. -/
def docC2 : Doc :=
  { objects := [
      { id := "local-1",
        geometry := some (.mesh
          { vertices := [(0, 0, 0), (1, 0, 0), (0, 1, 0)],
            faces := [{ isTriangle := true, a := 0, b := 1, c := 2, d := 2 }],
            normals := [], vertexColors := [], fault := none }),
        attrs := .error () }] }

/-- The RhinoObject parseLocally extracts from docC2. -/
def objC2 : RhinoObject :=
  { id := "local-1",
    geometry := { vertices := [[0, 0, 0], [1, 0, 0], [0, 1, 0]],
                  faces := [[0, 1, 2]], normals := none, colors := none },
    attributes := none, objectType := .mesh }

/-- Fixture: the compute endpoint answers 200 OK with a JSON body carrying
three meshes, and the file also decodes locally to docC2. -/
def envC2 : UploadEnv :=
  { loadRhino := .ok { eid := 1 }, version := .ok "8.0",
    grasshopper := .ok { ok := true, statusText := "OK",
                         json := .ok { meshes := 3 } },
    readOk := true, decode := .ok docC2 }

/-- Fixture document with two convertible objects (a native mesh and a
tessellated Brep). -/
def docC3 : Doc :=
  { objects := [
      { id := "m-1",
        geometry := some (.mesh
          { vertices := [(0, 0, 0)], faces := [], normals := [],
            vertexColors := [], fault := none }),
        attrs := .error () },
      { id := "b-2",
        geometry := some (.brep (.ok (some
          { vertices := [(2, 2, 2)], faces := [], normals := [],
            vertexColors := [], fault := none }))),
        attrs := .error () }] }

/-- Fixture: the compute server connection fails outright and the file
decodes locally to the two objects of docC3. -/
def envC3 : UploadEnv :=
  { loadRhino := .ok { eid := 1 }, version := .error "ECONNREFUSED",
    grasshopper := .error "ECONNREFUSED", readOk := true,
    decode := .ok docC3 }

/-- Fixture document mixing convertible and non-convertible objects: a native
mesh, an object whose geometry() is null, an unsupported object type, a Brep
whose tessellation returns null, and a convertible Brep. -/
def docC4 : Doc :=
  { objects := [
      { id := "mesh-1",
        geometry := some (.mesh
          { vertices := [(0, 0, 0)], faces := [], normals := [],
            vertexColors := [], fault := none }),
        attrs := .error () },
      { id := "null-geom", geometry := none, attrs := .error () },
      { id := "point-3", geometry := some .other, attrs := .error () },
      { id := "brep-null", geometry := some (.brep (.ok none)),
        attrs := .error () },
      { id := "brep-5",
        geometry := some (.brep (.ok (some
          { vertices := [(1, 1, 1)], faces := [], normals := [],
            vertexColors := [], fault := none }))),
        attrs := .error () }] }

/-- Fixture: remote unreachable, local decode yields docC4. -/
def envC4 : UploadEnv :=
  { loadRhino := .ok { eid := 1 }, version := .error "ECONNREFUSED",
    grasshopper := .error "ECONNREFUSED", readOk := true,
    decode := .ok docC4 }

/-- Fixture: remote unreachable, the file decodes to a document with zero
objects. -/
def envC5 : UploadEnv :=
  { loadRhino := .ok { eid := 1 }, version := .error "ECONNREFUSED",
    grasshopper := .error "ECONNREFUSED", readOk := true,
    decode := .ok { objects := [] } }

/-- Fixture document with one Brep whose tessellated mesh is created but then
faults while its vertices are being read. -/
def docC6 : Doc :=
  { objects := [
      { id := "brep-1",
        geometry := some (.brep (.ok (some
          { vertices := [], faces := [], normals := [], vertexColors := [],
            fault := some "engine exception while reading vertices" }))),
        attrs := .error () }] }

/-- Fixture: remote unreachable, local decode yields docC6. -/
def envC6 : UploadEnv :=
  { loadRhino := .ok { eid := 1 }, version := .error "ECONNREFUSED",
    grasshopper := .error "ECONNREFUSED", readOk := true,
    decode := .ok docC6 }

/-- Fixture mesh carrying two vertex colors. -/
def meshC8 : EngineMesh :=
  { vertices := [(0, 0, 0)], faces := [],
    normals := [],
    vertexColors := [{ r := 255, g := 0, b := 128, a := 255 },
                     { r := 0, g := 128, b := 255, a := 0 }],
    fault := none }

/-- Fixture: a loader that succeeds with engine handle 9. -/
def envC9 : UploadEnv :=
  { loadRhino := .ok { eid := 9 }, version := .ok "8.0",
    grasshopper := .error "ECONNREFUSED", readOk := true,
    decode := .ok { objects := [] } }

/-- Fixture: a loader that fails; everything else irrelevant. -/
def envC10a : UploadEnv :=
  { loadRhino := .error "network error fetching wasm",
    version := .error "ECONNREFUSED", grasshopper := .error "ECONNREFUSED",
    readOk := true, decode := .ok { objects := [] } }

/-- Fixture: a loader that succeeds on the retry with engine handle 4. -/
def envC10b : UploadEnv :=
  { loadRhino := .ok { eid := 4 }, version := .error "ECONNREFUSED",
    grasshopper := .error "ECONNREFUSED", readOk := true,
    decode := .ok { objects := [] } }

/-! Helper lemmas shared by the claim theorems. -/

/-- The stub processComputeResult makes every successful parseWithCompute
call resolve to the empty list. -/
theorem parseWithCompute_ok_empty (env : UploadEnv)
    (objs : List RhinoObject) (h : parseWithCompute env = Except.ok objs) :
    objs = [] := by
  unfold parseWithCompute at h
  split at h
  · cases h
  · split at h
    · split at h
      · cases h
      · cases h
        rfl
    · cases h

/-- When the singleton already holds an engine handle, the initialize step
returns it unchanged with no import attempt. -/
theorem initEngine_cached (s : ServiceState) (env : UploadEnv) (m : Engine)
    (h : s.rhinoModule = some m) :
    initEngine s env = { result := .ok m, state := s, imports := 0 } := by
  unfold initEngine
  rw [h]

/-- When no handle is cached and the loader succeeds, the initialize step
caches the fresh handle after one import attempt. -/
theorem initEngine_fresh_ok (s : ServiceState) (env : UploadEnv) (m : Engine)
    (h1 : s.rhinoModule = none) (h2 : env.loadRhino = Except.ok m) :
    initEngine s env =
      { result := .ok m, state := { rhinoModule := some m },
        imports := 1 } := by
  unfold initEngine
  rw [h1, h2]

/-- When no handle is cached and the loader fails, the initialize step
rejects with the wrapped message and leaves the state unchanged. -/
theorem initEngine_fresh_err (s : ServiceState) (env : UploadEnv) (e : String)
    (h1 : s.rhinoModule = none) (h2 : env.loadRhino = Except.error e) :
    initEngine s env =
      { result := .error ("Rhino3dm initialization failed: " ++ e),
        state := s, imports := 1 } := by
  unfold initEngine
  rw [h1, h2]

/-- With a cached engine, every parse3dmFile call runs the local fallback
and returns its outcome: the remote attempt never yields a non-empty list. -/
theorem parse3dmFile_cached (s : ServiceState) (env : UploadEnv) (m : Engine)
    (h : s.rhinoModule = some m) :
    parse3dmFile s env =
      { result := (parseLocally env).result, state := s,
        trace := { (parseLocally env).trace with
                     imports := 0, localCalls := 1 } } := by
  unfold parse3dmFile
  rw [initEngine_cached s env m h]
  rcases hr : parseWithCompute env with e | objs
  · rfl
  · have hnil : objs = [] := parseWithCompute_ok_empty env objs hr
    subst hnil
    rfl

/-- The object-table loop collects exactly the per-object conversions, in
table order. -/
theorem extractObjects_fst (l : List DocObject) :
    (extractObjects l).1 = l.filterMap toRhinoObject := by
  induction l with
  | nil => rfl
  | cons o rest ih =>
    rcases hgeo : o.geometry with _ | g
    · simp [extractObjects, toRhinoObject, List.filterMap_cons, hgeo, ih]
    · rcases hg : (extractMeshGeometry g).geom with _ | mg <;>
        simp [extractObjects, toRhinoObject, List.filterMap_cons, hgeo, hg,
          ih]

/-- Counting: the length of a filterMap is the number of inputs on which the
function returns a value. -/
theorem length_filterMap_isSome {α β : Type} (f : α → Option β) (l : List α) :
    (l.filterMap f).length = l.countP (fun o => (f o).isSome) := by
  induction l with
  | nil => rfl
  | cons a rest ih =>
    rcases hf : f a with _ | b <;>
      simp [List.filterMap_cons, hf, List.countP_cons, ih]

/-- With a cached engine, a readable file and a decodable document, the call
resolves with the converted object table. -/
theorem parse3dmFile_local_ok (s : ServiceState) (env : UploadEnv)
    (m : Engine) (doc : Doc) (h1 : s.rhinoModule = some m)
    (h2 : env.readOk = true) (h3 : env.decode = Except.ok doc) :
    (parse3dmFile s env).result =
      Except.ok (doc.objects.filterMap toRhinoObject) := by
  rw [parse3dmFile_cached s env m h1]
  unfold parseLocally
  rw [if_pos h2, h3]
  simpa using extractObjects_fst doc.objects

/-- The faces loop distributes over list append. -/
theorem collectFaces_append (xs ys : List MeshFace) :
    collectFaces (xs ++ ys) = collectFaces xs ++ collectFaces ys := by
  induction xs with
  | nil => rfl
  | cons f rest ih =>
    by_cases hf : f.isTriangle <;>
      simp [collectFaces, hf, ih]

/-- parse3dmFile keeps the state and import count produced by the
initialization step, whichever path the call takes afterwards. -/
theorem parse3dmFile_init_fields (s : ServiceState) (env : UploadEnv) :
    (parse3dmFile s env).state = (initEngine s env).state ∧
    (parse3dmFile s env).trace.imports = (initEngine s env).imports := by
  unfold parse3dmFile
  rcases hie : initEngine s env with ⟨res, st, n⟩
  rcases res with e | m
  · exact ⟨rfl, rfl⟩
  · rcases hr : parseWithCompute env with e | objs
    · exact ⟨rfl, rfl⟩
    · rcases objs with _ | ⟨o, rest⟩
      · exact ⟨rfl, rfl⟩
      · constructor <;> simp

/-! Claim theorems. -/

/-- C1 counterexample: the claim says every local decode error is reported as
a Failure outcome of the call rather than an exception/rejection escaping to
the caller. On envC1 (engine loads, compute server unreachable, corrupt file
bytes) parse3dmFile's promise REJECTS with the decode error - the rejection
escapes to the caller, and no ok outcome is produced. -/
theorem C1_rejection_escapes_counterexample :
    (parse3dmFile { rhinoModule := none } envC1).result =
      Except.error "corrupt 3dm byte buffer" ∧
    ∀ objs : List RhinoObject,
      (parse3dmFile { rhinoModule := none } envC1).result ≠
        Except.ok objs := by
  refine ⟨rfl, ?_⟩
  intro objs h
  rw [show (parse3dmFile { rhinoModule := none } envC1).result =
        Except.error "corrupt 3dm byte buffer" from rfl] at h
  exact Except.noConfusion h

/-- C1 amended: an engine-initialization failure escapes parse3dmFile as a
rejection carrying "Rhino3dm initialization failed: ...", and a local decode
error escapes as a rejection carrying the engine's message; neither is
converted into an in-band Failure value (only remote-attempt errors are
absorbed). -/
theorem C1_errors_escape (env : UploadEnv) (e d : String) (m : Engine) :
    (env.loadRhino = Except.error e →
      (parse3dmFile { rhinoModule := none } env).result =
        Except.error ("Rhino3dm initialization failed: " ++ e)) ∧
    (env.readOk = true → env.decode = Except.error d →
      (parse3dmFile { rhinoModule := some m } env).result =
        Except.error d) := by
  constructor
  · intro h
    unfold parse3dmFile
    rw [initEngine_fresh_err { rhinoModule := none } env e rfl h]
  · intro h1 h2
    rw [parse3dmFile_cached { rhinoModule := some m } env m rfl]
    unfold parseLocally
    rw [if_pos h1, h2]

/-- C1 witness: on envC1w the init-failure rejection and (with a cached
engine) the decode-error rejection are both observed concretely. -/
theorem C1_errors_escape_witness :
    (parse3dmFile { rhinoModule := none } envC1w).result =
      Except.error ("Rhino3dm initialization failed: " ++
        "wasm fetch failed") ∧
    (parse3dmFile { rhinoModule := some { eid := 8 } } envC1w).result =
      Except.error "corrupt 3dm byte buffer" :=
  ⟨(C1_errors_escape envC1w "wasm fetch failed" "corrupt 3dm byte buffer"
      { eid := 8 }).1 rfl,
   (C1_errors_escape envC1w "wasm fetch failed" "corrupt 3dm byte buffer"
      { eid := 8 }).2 rfl rfl⟩

/-- C2 counterexample: the claim says that when the remote endpoint responds
successfully and its response carries one or more meshes, resolve returns
that result as Success and the local engine is not invoked. On envC2 the
endpoint responds 200 OK with a three-mesh body, yet parseLocally IS invoked
(localCalls = 1) and the outcome is the locally decoded object, because
processComputeResult discards the response. -/
theorem C2_remote_meshes_discarded_counterexample :
    envC2.grasshopper =
      Except.ok { ok := true, statusText := "OK",
                  json := Except.ok { meshes := 3 } } ∧
    (parse3dmFile { rhinoModule := some { eid := 7 } }
        envC2).trace.localCalls = 1 ∧
    (parse3dmFile { rhinoModule := some { eid := 7 } } envC2).result =
      Except.ok [objC2] :=
  ⟨rfl, rfl, rfl⟩

/-- C2 amended: on every successful remote response the conversion
processComputeResult yields the empty list, so parseWithCompute resolves to
an empty collection and parse3dmFile always falls back to the local engine;
the remote response's meshes never take precedence. (The immediate-return
branch for a non-empty remote list exists in the control flow but is
unreachable with the stub converter.) -/
theorem C2_remote_conversion_empty (s : ServiceState) (env : UploadEnv)
    (m : Engine) (resp : ComputeResponse) (j : ComputeJson)
    (h1 : s.rhinoModule = some m) (h2 : env.grasshopper = Except.ok resp)
    (h3 : resp.ok = true) (h4 : resp.json = Except.ok j) :
    processComputeResult j = [] ∧
    parseWithCompute env = Except.ok [] ∧
    (parse3dmFile s env).trace.localCalls = 1 := by
  refine ⟨rfl, ?_, ?_⟩
  · simp [parseWithCompute, h2, h3, h4, processComputeResult]
  · rw [parse3dmFile_cached s env m h1]

/-- C2 witness: the amended statement evaluated on envC2. -/
theorem C2_remote_conversion_empty_witness :
    processComputeResult { meshes := 3 } = [] ∧
    parseWithCompute envC2 = Except.ok [] ∧
    (parse3dmFile { rhinoModule := some { eid := 7 } }
        envC2).trace.localCalls = 1 :=
  C2_remote_conversion_empty { rhinoModule := some { eid := 7 } } envC2
    { eid := 7 }
    { ok := true, statusText := "OK", json := Except.ok { meshes := 3 } }
    { meshes := 3 } rfl rfl rfl rfl

/-- C3: with an initialized engine, whenever the remote attempt does not
yield a non-empty list (network error, non-2xx response, body-parse failure
or empty conversion), parse3dmFile runs the local fallback and returns
exactly the local outcome - no remote error appears in the returned
promise. -/
theorem C3_remote_failures_absorbed (s : ServiceState) (env : UploadEnv)
    (m : Engine) (h1 : s.rhinoModule = some m)
    (_h2 : remoteNonEmpty env = false) :
    (parse3dmFile s env).result = (parseLocally env).result ∧
    (parse3dmFile s env).trace.localCalls = 1 := by
  rw [parse3dmFile_cached s env m h1]
  exact ⟨rfl, rfl⟩

/-- C3 witness: a connection-refused remote attempt on a file that locally
decodes to two objects. -/
theorem C3_remote_failures_absorbed_witness :
    remoteNonEmpty envC3 = false ∧
    ((parse3dmFile { rhinoModule := some { eid := 2 } } envC3).result =
        (parseLocally envC3).result ∧
      (parse3dmFile { rhinoModule := some { eid := 2 } }
          envC3).trace.localCalls = 1) :=
  ⟨rfl, C3_remote_failures_absorbed { rhinoModule := some { eid := 2 } }
    envC3 { eid := 2 } rfl rfl⟩

/-- C4: with an initialized engine, a readable file and a decodable
document, parse3dmFile resolves with exactly the per-object conversions of
the object table, in table order; objects with null or non-convertible
geometry are skipped and the collection's length is the number of
convertible objects. -/
theorem C4_local_collection (s : ServiceState) (env : UploadEnv) (m : Engine)
    (doc : Doc) (h1 : s.rhinoModule = some m) (h2 : env.readOk = true)
    (h3 : env.decode = Except.ok doc) :
    (parse3dmFile s env).result =
      Except.ok (doc.objects.filterMap toRhinoObject) ∧
    (doc.objects.filterMap toRhinoObject).length =
      doc.objects.countP (fun o => (toRhinoObject o).isSome) :=
  ⟨parse3dmFile_local_ok s env m doc h1 h2 h3,
   length_filterMap_isSome toRhinoObject doc.objects⟩

/-- C4 witness: docC4 mixes five objects of which exactly two are
convertible; the call resolves with those two, in order. -/
theorem C4_local_collection_witness :
    ((parse3dmFile { rhinoModule := some { eid := 5 } } envC4).result =
        Except.ok (docC4.objects.filterMap toRhinoObject) ∧
      (docC4.objects.filterMap toRhinoObject).length =
        docC4.objects.countP (fun o => (toRhinoObject o).isSome)) ∧
    (docC4.objects.filterMap toRhinoObject).length = 2 :=
  ⟨C4_local_collection { rhinoModule := some { eid := 5 } } envC4
    { eid := 5 } docC4 rfl rfl rfl, rfl⟩

/-- C5: with an initialized engine and a decodable document with no
convertible objects, parse3dmFile resolves with the empty collection, an
outcome distinct from every rejection. -/
theorem C5_empty_document (s : ServiceState) (env : UploadEnv) (m : Engine)
    (doc : Doc) (h1 : s.rhinoModule = some m) (h2 : env.readOk = true)
    (h3 : env.decode = Except.ok doc)
    (h4 : doc.objects.filterMap toRhinoObject = []) :
    (parse3dmFile s env).result = Except.ok [] ∧
    ∀ msg : String, (parse3dmFile s env).result ≠ Except.error msg := by
  have hres := parse3dmFile_local_ok s env m doc h1 h2 h3
  rw [h4] at hres
  exact ⟨hres, fun msg h => by
    rw [hres] at h
    exact Except.noConfusion h⟩

/-- C5 witness: a zero-object document resolves with the empty collection. -/
theorem C5_empty_document_witness :
    (parse3dmFile { rhinoModule := some { eid := 6 } } envC5).result =
      Except.ok [] ∧
    ∀ msg : String,
      (parse3dmFile { rhinoModule := some { eid := 6 } } envC5).result ≠
        Except.error msg :=
  C5_empty_document { rhinoModule := some { eid := 6 } } envC5 { eid := 6 }
    { objects := [] } rfl rfl rfl rfl

/-- C6 (code bug): on envC6 the Brep's tessellated mesh is created
(meshesCreated = 1) but the engine faults while its data is read, the catch
in extractMeshGeometry returns null without reaching mesh.delete(), and the
call returns (here with an empty collection) having released no mesh handle
(meshesDeleted = 0) - the created handle leaks, contrary to the claim that
every handle created during the call is released before it returns. -/
theorem C6_leaked_mesh_eval :
    (parse3dmFile { rhinoModule := some { eid := 3 } }
        envC6).trace.meshesCreated = 1 ∧
    (parse3dmFile { rhinoModule := some { eid := 3 } }
        envC6).trace.meshesDeleted = 0 ∧
    (parse3dmFile { rhinoModule := some { eid := 3 } } envC6).result =
      Except.ok [] :=
  ⟨rfl, rfl, rfl⟩

/-- C7: within any face list, a quad face [a,b,c,d] contributes exactly the
two triangles [a,b,c] and [a,c,d], in that order and in place, to the
extracted triangle list, and a triangle face contributes exactly [a,b,c]. -/
theorem C7_quad_split_into_two_triangles (pre post : List MeshFace)
    (a b c d : Nat) :
    collectFaces
        (pre ++ { isTriangle := false, a := a, b := b, c := c, d := d } ::
          post) =
      collectFaces pre ++ [a, b, c] :: [a, c, d] :: collectFaces post ∧
    collectFaces
        (pre ++ { isTriangle := true, a := a, b := b, c := c, d := d } ::
          post) =
      collectFaces pre ++ [a, b, c] :: collectFaces post := by
  constructor <;> rw [collectFaces_append] <;> simp [collectFaces]

/-- C8: when the engine delivers vertex colors, each 0-255 channel is
divided by 255 before being placed in the extracted geometry; 255 maps to
1, 0 maps to 0 and 128 maps to 128/255, within 1/1000 of 0.502. -/
theorem C8_color_channels_normalized (mesh : EngineMesh)
    (h1 : mesh.fault = none) (h2 : mesh.vertexColors ≠ []) :
    ((extractMeshGeometry (GeometryData.mesh mesh)).geom.map
        fun g => g.colors) =
      some (some (mesh.vertexColors.map normalizeColor)) ∧
    normalizeColor { r := 255, g := 255, b := 255, a := 255 } =
      [1, 1, 1, 1] ∧
    normalizeColor { r := 0, g := 0, b := 0, a := 0 } = [0, 0, 0, 0] ∧
    ∀ x ∈ normalizeColor { r := 128, g := 128, b := 128, a := 128 },
      |x - 502 / 1000| < 1 / 1000 := by
  have hl : 0 < mesh.vertexColors.length := List.length_pos.mpr h2
  refine ⟨?_, ?_, ?_, ?_⟩
  · show ((extractFromMesh mesh false).geom.map fun g => g.colors) =
      some (some (mesh.vertexColors.map normalizeColor))
    simp [extractFromMesh, h1, hl]
  · norm_num [normalizeColor]
  · norm_num [normalizeColor]
  · intro x hx
    simp only [normalizeColor, List.mem_cons, List.not_mem_nil, or_false] at hx
    have hx128 : x = (128 : ℚ) / 255 := by
      rcases hx with h | h | h | h <;> simpa using h
    rw [hx128, abs_sub_lt_iff]
    constructor <;> norm_num

/-- C8 witness: the normalization evaluated on meshC8's two vertex colors. -/
theorem C8_color_channels_normalized_witness :
    ((extractMeshGeometry (GeometryData.mesh meshC8)).geom.map
        fun g => g.colors) =
      some (some (meshC8.vertexColors.map normalizeColor)) ∧
    normalizeColor { r := 255, g := 255, b := 255, a := 255 } =
      [1, 1, 1, 1] ∧
    normalizeColor { r := 0, g := 0, b := 0, a := 0 } = [0, 0, 0, 0] ∧
    ∀ x ∈ normalizeColor { r := 128, g := 128, b := 128, a := 128 },
      |x - 502 / 1000| < 1 / 1000 :=
  C8_color_channels_normalized meshC8 rfl (by decide)

/-- C9: initialization is lazy and happens at most once: the first
successful initialize call performs one import and caches the handle, and
every later call - whatever its environment, even one whose loader would
fail - returns the same cached handle with zero import attempts. -/
theorem C9_lazy_single_init (env env2 : UploadEnv) (m : Engine)
    (h : env.loadRhino = Except.ok m) :
    initEngine { rhinoModule := none } env =
      { result := Except.ok m, state := { rhinoModule := some m },
        imports := 1 } ∧
    initEngine { rhinoModule := some m } env2 =
      { result := Except.ok m, state := { rhinoModule := some m },
        imports := 0 } :=
  ⟨initEngine_fresh_ok { rhinoModule := none } env m rfl h,
   initEngine_cached { rhinoModule := some m } env2 m rfl⟩

/-- C9 witness: first call caches handle 9; the second call's environment
has a failing loader, yet the cached handle is returned with no import. -/
theorem C9_lazy_single_init_witness :
    initEngine { rhinoModule := none } envC9 =
      { result := Except.ok { eid := 9 },
        state := { rhinoModule := some { eid := 9 } }, imports := 1 } ∧
    initEngine { rhinoModule := some { eid := 9 } } envC10a =
      { result := Except.ok { eid := 9 },
        state := { rhinoModule := some { eid := 9 } }, imports := 0 } :=
  C9_lazy_single_init envC9 envC10a { eid := 9 } rfl

/-- C10: a failed initialization attempt rejects with the wrapped message
and leaves the cached handle unset (failure is not cached), a parse3dmFile
call whose initialization failed ends in that same unset state, and a
subsequent call with a working loader re-attempts the import from scratch
and succeeds. -/
theorem C10_failed_init_not_cached (env env2 : UploadEnv) (e : String)
    (m : Engine) (h1 : env.loadRhino = Except.error e)
    (h2 : env2.loadRhino = Except.ok m) :
    initEngine { rhinoModule := none } env =
      { result := Except.error ("Rhino3dm initialization failed: " ++ e),
        state := { rhinoModule := none }, imports := 1 } ∧
    (parse3dmFile { rhinoModule := none } env).state =
      { rhinoModule := none } ∧
    initEngine { rhinoModule := none } env2 =
      { result := Except.ok m, state := { rhinoModule := some m },
        imports := 1 } ∧
    (parse3dmFile { rhinoModule := none } env2).trace.imports = 1 := by
  have hie := initEngine_fresh_err { rhinoModule := none } env e rfl h1
  have hie2 := initEngine_fresh_ok { rhinoModule := none } env2 m rfl h2
  refine ⟨hie, ?_, hie2, ?_⟩
  · rw [(parse3dmFile_init_fields { rhinoModule := none } env).1, hie]
  · rw [(parse3dmFile_init_fields { rhinoModule := none } env2).2, hie2]

/-- C10 witness: a failing loader (envC10a) then a succeeding one
(envC10b). -/
theorem C10_failed_init_not_cached_witness :
    initEngine { rhinoModule := none } envC10a =
      { result := Except.error ("Rhino3dm initialization failed: " ++
          "network error fetching wasm"),
        state := { rhinoModule := none }, imports := 1 } ∧
    (parse3dmFile { rhinoModule := none } envC10a).state =
      { rhinoModule := none } ∧
    initEngine { rhinoModule := none } envC10b =
      { result := Except.ok { eid := 4 },
        state := { rhinoModule := some { eid := 4 } }, imports := 1 } ∧
    (parse3dmFile { rhinoModule := none } envC10b).trace.imports = 1 :=
  C10_failed_init_not_cached envC10a envC10b "network error fetching wasm"
    { eid := 4 } rfl rfl

end FleetVision
